import Mathlib

/-!
Verification development for the responsive-reusable-package repository.

Shallow embedding of the core algorithms:
  - `getPositionStyles` (ResponsiveButton.jsx): placement presets, explicit
    offsets and margin precedence;
  - `containerClasses` (ResponsiveContainer): the class-token composer and
    spacing resolver;
  - the modal lifecycle effects of ResponsiveContainer (escape key listener,
    body scroll lock, backdrop click handler);
  - the feedback state machine of ResponsiveButton (showSuccess / showError
    effects, handleSuccess / handleError, the scheduled revert timer);
  - `gridClasses` (ResponsiveGrid.jsx).

JavaScript-specific behaviour (truthiness of `x && token` and `x || fallback`,
`typeof x === 'number'` pixel conversion) is embedded explicitly.
-/

/-- A JavaScript value used for offsets and margins: either a number or a
string (CSS length).  `undefined` is represented by `Option` at use sites. -/
inductive JSVal where
  | num (n : Int)
  | str (s : String)
  deriving DecidableEq, Repr

/-- JavaScript truthiness of a `JSVal`: `0` and `""` are falsy. -/
def JSVal.truthy : JSVal → Bool
  | .num n => n != 0
  | .str s => s != ""

/-- JavaScript `a || b` on defined values. -/
def jsOr (a b : JSVal) : JSVal := if a.truthy then a else b

/-- JavaScript `a || b` where `a` may be `undefined`. -/
def jsOrOpt (a : Option JSVal) (b : JSVal) : JSVal :=
  match a with
  | none => b
  | some v => jsOr v b

/-- `typeof v === 'number' ? v + 'px' : v` — the pixel conversion applied to
explicit offsets (custom branch) and margins in `getPositionStyles`. -/
def JSVal.px : JSVal → JSVal
  | .num n => .str (toString n ++ "px")
  | .str s => .str s

/-- Positioning-relevant props of ResponsiveButton (ResponsiveButton.jsx).
`none` stands for a prop that was not supplied (`undefined`). -/
structure BtnPos where
  position : String := "static"
  placement : Option String := none
  top : Option JSVal := none
  right : Option JSVal := none
  bottom : Option JSVal := none
  left : Option JSVal := none
  zIndex : Option JSVal := none
  margin : Option JSVal := none
  marginTop : Option JSVal := none
  marginRight : Option JSVal := none
  marginBottom : Option JSVal := none
  marginLeft : Option JSVal := none
  marginX : Option JSVal := none
  marginY : Option JSVal := none
  deriving DecidableEq, Repr

/-- The inline style record produced by `getPositionStyles`.  A field is
`none` when the corresponding key was never assigned. -/
structure PosStyles where
  position : Option String := none
  top : Option JSVal := none
  right : Option JSVal := none
  bottom : Option JSVal := none
  left : Option JSVal := none
  transform : Option String := none
  zIndex : Option JSVal := none
  margin : Option JSVal := none
  marginTop : Option JSVal := none
  marginRight : Option JSVal := none
  marginBottom : Option JSVal := none
  marginLeft : Option JSVal := none
  deriving DecidableEq, Repr

/-- `placement && placement !== 'custom'` — the guard on the preset branch. -/
def placementGiven : Option String → Bool
  | none => false
  | some p => p != "" && p != "custom"

/-- The `switch (placement)` of `getPositionStyles`.  Each preset assigns
`side || default` (JavaScript `||`, so a falsy explicit value such as `0`
falls back to the preset default).  The switch has no default case: an
unrecognized placement name assigns nothing. -/
def applyPreset (b : BtnPos) (s : PosStyles) : PosStyles :=
  match b.placement with
  | some "top-left" =>
      { s with top := some (jsOrOpt b.top (.num 0)),
               left := some (jsOrOpt b.left (.num 0)) }
  | some "top-center" =>
      { s with top := some (jsOrOpt b.top (.num 0)),
               left := some (jsOrOpt b.left (.str "50%")),
               transform := some "translateX(-50%)" }
  | some "top-right" =>
      { s with top := some (jsOrOpt b.top (.num 0)),
               right := some (jsOrOpt b.right (.num 0)) }
  | some "center-left" =>
      { s with top := some (jsOrOpt b.top (.str "50%")),
               left := some (jsOrOpt b.left (.num 0)),
               transform := some "translateY(-50%)" }
  | some "center" =>
      { s with top := some (jsOrOpt b.top (.str "50%")),
               left := some (jsOrOpt b.left (.str "50%")),
               transform := some "translate(-50%, -50%)" }
  | some "center-right" =>
      { s with top := some (jsOrOpt b.top (.str "50%")),
               right := some (jsOrOpt b.right (.num 0)),
               transform := some "translateY(-50%)" }
  | some "bottom-left" =>
      { s with bottom := some (jsOrOpt b.bottom (.num 0)),
               left := some (jsOrOpt b.left (.num 0)) }
  | some "bottom-center" =>
      { s with bottom := some (jsOrOpt b.bottom (.num 0)),
               left := some (jsOrOpt b.left (.str "50%")),
               transform := some "translateX(-50%)" }
  | some "bottom-right" =>
      { s with bottom := some (jsOrOpt b.bottom (.num 0)),
               right := some (jsOrOpt b.right (.num 0)) }
  | _ => s

/-- The `else` branch of the placement handling: explicit offsets only, with
numbers converted to pixel strings. -/
def applyCustomOffsets (b : BtnPos) (s : PosStyles) : PosStyles :=
  let s := match b.top with | some v => { s with top := some v.px } | none => s
  let s := match b.right with | some v => { s with right := some v.px } | none => s
  let s := match b.bottom with | some v => { s with bottom := some v.px } | none => s
  match b.left with | some v => { s with left := some v.px } | none => s

/-- The margin block of `getPositionStyles`: a uniform `margin` short-circuits
everything; otherwise per-side margins are set first and the axis margins
(`marginX`, `marginY`) overwrite both sides of their own axis afterwards. -/
def applyMargins (b : BtnPos) (s : PosStyles) : PosStyles :=
  match b.margin with
  | some v => { s with margin := some v.px }
  | none =>
    let s := match b.marginTop with
      | some v => { s with marginTop := some v.px } | none => s
    let s := match b.marginRight with
      | some v => { s with marginRight := some v.px } | none => s
    let s := match b.marginBottom with
      | some v => { s with marginBottom := some v.px } | none => s
    let s := match b.marginLeft with
      | some v => { s with marginLeft := some v.px } | none => s
    let s := match b.marginX with
      | some v => { s with marginLeft := some v.px, marginRight := some v.px }
      | none => s
    match b.marginY with
    | some v => { s with marginTop := some v.px, marginBottom := some v.px }
    | none => s

/-- `getPositionStyles` from ResponsiveButton.jsx. -/
def getPositionStyles (b : BtnPos) : PosStyles :=
  let s : PosStyles := {}
  let s := if b.position != "static" then { s with position := some b.position } else s
  let s :=
    if (b.position == "absolute" || b.position == "fixed") && placementGiven b.placement then
      applyPreset b s
    else
      applyCustomOffsets b s
  let s := match b.zIndex with | some v => { s with zIndex := some v } | none => s
  applyMargins b s

/-- Truthiness of an optional string prop (`undefined` and `""` are falsy). -/
def strTruthy : Option String → Bool
  | none => false
  | some s => s != ""

/-- `cond && "token"` — a conditionally emitted class token. -/
def tokIf (c : Bool) (t : String) : Option String :=
  if c then some t else none

/-- `x && ("pre" + x)` for an optional string prop: emits the token exactly
when the prop is truthy. -/
def tokOpt (x : Option String) (mk : String → String) : Option String :=
  match x with
  | some v => if v = "" then none else some (mk v)
  | none => none

/-- Props of ResponsiveContainer (src/unnamed/part_000), with the source's
default values.  Callback props are modelled by their presence
(`onModalClose : Bool` = a close callback was supplied). -/
structure ContainerCfg where
  className : String := ""
  maxWidth : String := "full"
  width : Option String := none
  align : String := "center"
  padding : Bool := true
  margin : Bool := true
  paddingX : Option String := none
  paddingY : Option String := none
  marginX : Option String := none
  marginY : Option String := none
  layout : String := "stack"
  gap : String := "4"
  radius : String := "none"
  textAlign : Option String := none
  alignItems : Option String := none
  justifyContent : Option String := none
  flexDirection : String := "column"
  flexWrap : String := "nowrap"
  darkBackground : Bool := false
  modal : Bool := false
  modalOpen : Bool := false
  onModalClose : Bool := false
  modalCloseOnBackdrop : Bool := true
  modalCloseOnEscape : Bool := true
  modalSize : String := "md"
  modalPosition : String := "center"
  modalBlurBackdrop : Bool := false
  shadow : Option String := none
  background : Option String := none
  border : Option String := none
  borderColor : Option String := none
  borderStyle : String := "solid"
  height : Option String := none
  minHeight : Option String := none
  maxHeight : Option String := none
  overflow : Option String := none
  overflowX : Option String := none
  overflowY : Option String := none
  position : Option String := none
  zIndex : Option String := none
  opacity : Option String := none
  transition : Option String := none
  hoverScale : Option String := none
  hoverShadow : Option String := none
  hoverBackground : Option String := none
  deriving DecidableEq, Repr

/-- The `containerClasses` array of src/unnamed/part_000 (lines 150-213):
each entry in source order, with falsy entries removed by
`.filter(Boolean)` (modelled by building `Option String` entries and
`filterMap id`). -/
def containerClasses (c : ContainerCfg) : List String :=
  ([ some "responsive-container",
     tokIf (!c.modal) ("responsive-container--" ++ c.maxWidth),
     (if !c.modal then tokOpt c.width (fun v => "responsive-container--width-" ++ v) else none),
     tokIf (!c.modal) ("responsive-container--align-" ++ c.align),
     tokOpt c.paddingX (fun v => "responsive-container--padding-x-" ++ v),
     tokOpt c.paddingY (fun v => "responsive-container--padding-y-" ++ v),
     tokOpt c.marginX (fun v => "responsive-container--margin-x-" ++ v),
     tokOpt c.marginY (fun v => "responsive-container--margin-y-" ++ v),
     tokIf (!strTruthy c.paddingX && !strTruthy c.paddingY && c.padding)
       "responsive-container--padding",
     tokIf (!strTruthy c.marginX && !strTruthy c.marginY && c.margin && !c.modal)
       "responsive-container--margin",
     some ("responsive-container--" ++ c.layout),
     tokIf (c.layout == "flex" || c.layout == "grid") ("responsive-container--gap-" ++ c.gap),
     tokOpt c.textAlign (fun v => "responsive-container--text-" ++ v),
     (if c.layout = "flex" then
        tokOpt c.alignItems (fun v => "responsive-container--align-items-" ++ v)
      else none),
     (if c.layout = "flex" then
        tokOpt c.justifyContent (fun v => "responsive-container--justify-" ++ v)
      else none),
     tokIf (c.layout == "flex" && c.flexDirection != "")
       ("responsive-container--flex-" ++ c.flexDirection),
     tokIf (c.layout == "flex" && c.flexWrap != "")
       ("responsive-container--flex-wrap-" ++ c.flexWrap),
     tokIf (c.radius != "") ("responsive-container--radius-" ++ c.radius),
     tokOpt c.shadow (fun v => "responsive-container--shadow-" ++ v),
     tokOpt c.background (fun v => "responsive-container--bg-" ++ v),
     tokIf c.darkBackground "responsive-container--dark-bg",
     tokOpt c.border (fun v => "responsive-container--border-" ++ v),
     tokOpt c.borderColor (fun v => "responsive-container--border-" ++ v),
     tokIf (c.borderStyle != "solid") ("responsive-container--border-" ++ c.borderStyle),
     tokOpt c.height (fun v => "responsive-container--height-" ++ v),
     tokOpt c.minHeight (fun v => "responsive-container--min-height-" ++ v),
     tokOpt c.maxHeight (fun v => "responsive-container--max-height-" ++ v),
     tokOpt c.overflow (fun v => "responsive-container--overflow-" ++ v),
     tokOpt c.overflowX (fun v => "responsive-container--overflow-x-" ++ v),
     tokOpt c.overflowY (fun v => "responsive-container--overflow-y-" ++ v),
     tokOpt c.position (fun v => "responsive-container--position-" ++ v),
     tokOpt c.zIndex (fun v => "responsive-container--z-" ++ v),
     tokOpt c.opacity (fun v => "responsive-container--opacity-" ++ v),
     tokOpt c.transition (fun v => "responsive-container--transition-" ++ v),
     tokOpt c.hoverScale (fun v => "responsive-container--hover-scale-" ++ v),
     tokOpt c.hoverShadow (fun v => "responsive-container--hover-shadow-" ++ v),
     tokOpt c.hoverBackground (fun v => "responsive-container--hover-bg-" ++ v),
     tokIf c.modal "responsive-container--modal",
     tokIf c.modal ("responsive-container--modal-" ++ c.modalSize),
     tokIf c.modal ("responsive-container--modal-" ++ c.modalPosition),
     (if c.className = "" then none else some c.className)
   ] : List (Option String)).filterMap id

/-- Document-level state touched by the modal effects: the body
`overflow` style value and the number of key-down listeners registered by
the escape effect. -/
structure DocState where
  overflow : String
  keydownHandlers : Nat
  deriving DecidableEq, Repr

/-- Guard of the escape-key effect (part_000 line 120):
`modal && modalOpen && modalCloseOnEscape && onModalClose`. -/
def escapeEffectActive (c : ContainerCfg) : Bool :=
  c.modal && c.modalOpen && c.modalCloseOnEscape && c.onModalClose

/-- Guard of the scroll-lock effect (part_000 line 134): `modal && modalOpen`. -/
def scrollEffectActive (c : ContainerCfg) : Bool :=
  c.modal && c.modalOpen

/-- Running both modal effects when the component renders with its current
props: the escape effect registers one key-down listener, the scroll-lock
effect sets `document.body.style.overflow = 'hidden'`. -/
def mountModalEffects (c : ContainerCfg) (d : DocState) : DocState :=
  let d := if escapeEffectActive c then
    { d with keydownHandlers := d.keydownHandlers + 1 } else d
  if scrollEffectActive c then { d with overflow := "hidden" } else d

/-- Running the cleanup functions returned by the modal effects (triggered
when the open flag flips to false, or on unmount): the escape effect's
cleanup removes its listener, the scroll-lock effect's cleanup sets
`document.body.style.overflow = 'unset'` — a constant, not the saved
pre-open value. -/
def cleanupModalEffects (c : ContainerCfg) (d : DocState) : DocState :=
  let d := if escapeEffectActive c then
    { d with keydownHandlers := d.keydownHandlers - 1 } else d
  if scrollEffectActive c then { d with overflow := "unset" } else d

/-- Toggling the open flag true then false: the effects run against the open
props `c`, then their cleanups run. -/
def openCloseRoundTrip (c : ContainerCfg) (d : DocState) : DocState :=
  cleanupModalEffects c (mountModalEffects c d)

/-- A click event, identified by the element ids of its target and
currentTarget (the backdrop div the handler is attached to). -/
structure ClickEvent where
  target : Nat
  currentTarget : Nat
  deriving DecidableEq, Repr

/-- `handleBackdropClick` (part_000 lines 143-147).  Returns whether the
`onModalClose` callback was invoked:
`modalCloseOnBackdrop && onModalClose && e.target === e.currentTarget`. -/
def handleBackdropClick (c : ContainerCfg) (e : ClickEvent) : Bool :=
  c.modalCloseOnBackdrop && c.onModalClose && (e.target == e.currentTarget)

/-- Feedback-relevant props of ResponsiveButton (ResponsiveButton.jsx).
`onActionComplete` is modelled by its presence. -/
structure BtnProps where
  variant : String := "primary"
  children : String := ""
  disabled : Bool := false
  successMessage : Option String := none
  errorMessage : Option String := none
  feedbackDuration : Nat := 3000
  showSuccess : Bool := false
  showError : Bool := false
  onActionComplete : Bool := false
  deriving DecidableEq, Repr

/-- The three state hooks of ResponsiveButton. -/
structure BtnState where
  currentVariant : String
  currentContent : String
  isShowingFeedback : Bool
  deriving DecidableEq, Repr

/-- A scheduled `setTimeout` revert timer.  The callback closure captures the
`variant` and `children` props at scheduling time and, at expiry, restores
them and clears the feedback flag.  The source never stores the timeout id
and never calls `clearTimeout`. -/
structure RevertTimer where
  delay : Nat
  variant : String
  children : String
  outcome : String
  deriving DecidableEq, Repr

/-- `handleSuccess` (ResponsiveButton.jsx lines 251-268): guard on
`disabled`, enter feedback state, display the success message if supplied,
and schedule a revert timer for `feedbackDuration`. -/
def handleSuccess (p : BtnProps) (s : BtnState) (timers : List RevertTimer) :
    BtnState × List RevertTimer :=
  if p.disabled then (s, timers)
  else
    ({ currentVariant := "success",
       currentContent := match p.successMessage with
         | some m => m
         | none => s.currentContent,
       isShowingFeedback := true },
     timers ++ [⟨p.feedbackDuration, p.variant, p.children, "success"⟩])

/-- `handleError` (ResponsiveButton.jsx lines 271-288). -/
def handleError (p : BtnProps) (s : BtnState) (timers : List RevertTimer) :
    BtnState × List RevertTimer :=
  if p.disabled then (s, timers)
  else
    ({ currentVariant := "danger",
       currentContent := match p.errorMessage with
         | some m => m
         | none => s.currentContent,
       isShowingFeedback := true },
     timers ++ [⟨p.feedbackDuration, p.variant, p.children, "error"⟩])

/-- The `showSuccess` trigger effect (lines 237-241):
`if (showSuccess && !disabled && !isShowingFeedback) handleSuccess()`. -/
def showSuccessEffect (p : BtnProps) (st : BtnState × List RevertTimer) :
    BtnState × List RevertTimer :=
  if p.showSuccess && !p.disabled && !st.1.isShowingFeedback then
    handleSuccess p st.1 st.2
  else st

/-- The `showError` trigger effect (lines 244-248). -/
def showErrorEffect (p : BtnProps) (st : BtnState × List RevertTimer) :
    BtnState × List RevertTimer :=
  if p.showError && !p.disabled && !st.1.isShowingFeedback then
    handleError p st.1 st.2
  else st

/-- The variant-reset effect (lines 229-234), run when the `variant` or
`children` prop changes: the state is resynced only when no feedback cycle is
in flight.  It touches no timer — the scheduled timers are returned
unchanged. -/
def variantResetEffect (newVariant newChildren : String)
    (st : BtnState × List RevertTimer) : BtnState × List RevertTimer :=
  if !st.1.isShowingFeedback then
    ({ st.1 with currentVariant := newVariant, currentContent := newChildren }, st.2)
  else st

/-- Unmounting the button: none of the three `useEffect` hooks of
ResponsiveButton returns a cleanup function, so unmount runs no cleanup and
in particular clears no scheduled timer. -/
def unmountButton (st : BtnState × List RevertTimer) : BtnState × List RevertTimer :=
  st

/-- Expiry of a scheduled revert timer: the `setTimeout` callback restores
the captured `variant` and `children` and clears the feedback flag. -/
def timerExpire (t : RevertTimer) (_s : BtnState) : BtnState :=
  { currentVariant := t.variant, currentContent := t.children,
    isShowingFeedback := false }

/-- Props of ResponsiveGrid (ResponsiveGrid.jsx). -/
structure GridCfg where
  className : String := ""
  cols : Nat := 1
  smCols : Option Nat := none
  mdCols : Option Nat := none
  lgCols : Option Nat := none
  xlCols : Option Nat := none
  gap : String := "4"
  alignItems : String := "start"
  justifyItems : String := "start"
  autoFit : Bool := false
  autoFitSize : String := "md"
  deriving DecidableEq, Repr

/-- `n && token` for an optional numeric prop (`0` is falsy in JavaScript). -/
def tokNat (x : Option Nat) (mk : Nat → String) : Option String :=
  match x with
  | some n => if n = 0 then none else some (mk n)
  | none => none

/-- The `gridClasses` array of ResponsiveGrid.jsx (lines 37-54). -/
def gridClasses (g : GridCfg) : List String :=
  ([ some "responsive-grid",
     tokIf g.autoFit
       ("responsive-grid--auto-fit" ++
         (if g.autoFitSize != "md" then "-" ++ g.autoFitSize else "")),
     tokIf (!g.autoFit) ("responsive-grid--cols-" ++ toString g.cols),
     (if !g.autoFit then tokNat g.smCols (fun n => "responsive-grid--sm-cols-" ++ toString n) else none),
     (if !g.autoFit then tokNat g.mdCols (fun n => "responsive-grid--md-cols-" ++ toString n) else none),
     (if !g.autoFit then tokNat g.lgCols (fun n => "responsive-grid--lg-cols-" ++ toString n) else none),
     (if !g.autoFit then tokNat g.xlCols (fun n => "responsive-grid--xl-cols-" ++ toString n) else none),
     some ("responsive-grid--gap-" ++ g.gap),
     some ("responsive-grid--items-" ++ g.alignItems),
     some ("responsive-grid--justify-" ++ g.justifyItems),
     (if g.className = "" then none else some g.className)
   ] : List (Option String)).filterMap id

/-- The tokens of the composed class list that provide vertical default or
vertical axis padding: the generic `responsive-container--padding` token
(which pads both axes) and any `responsive-container--padding-y-*` token. -/
def verticalPaddingTokens (l : List String) : List String :=
  l.filter (fun t =>
    t == "responsive-container--padding" ||
    List.isPrefixOf ("responsive-container--padding-y-").data t.data)

/-- Claim C1 is falsified at a concrete state: with a modal overlay open
(close callback supplied, Escape enabled) over a document whose body
overflow was "auto", toggling the open flag true then false leaves the body
overflow at the constant "unset", not at the pre-open value "auto" — the
open-then-close round trip does not reproduce the original document style
state.  (The key-listener count does return to its pre-open value.) -/
theorem overlay_roundtrip_cex :
    openCloseRoundTrip { modal := true, modalOpen := true, onModalClose := true }
        ⟨"auto", 0⟩
      = ⟨"unset", 0⟩ ∧
    (⟨"unset", 0⟩ : DocState) ≠ ⟨"auto", 0⟩ := by
  decide

/-- Claim C1 (amended): for every overlay (modal=true) whose open flag is
toggled true then false, every key-down listener the controller registered is
removed (the listener count returns exactly to its pre-open value), and the
body overflow is set to the constant "unset"; hence the round trip reproduces
the original document style state exactly when the pre-open overflow was
"unset", and only then. -/
theorem overlay_roundtrip_amended (c : ContainerCfg) (d : DocState)
    (hm : c.modal = true) (ho : c.modalOpen = true) :
    (openCloseRoundTrip c d).keydownHandlers = d.keydownHandlers ∧
    (openCloseRoundTrip c d).overflow = "unset" ∧
    (openCloseRoundTrip c d = d ↔ d.overflow = "unset") := by
  obtain ⟨ov, kh⟩ := d
  have hs : scrollEffectActive c = true := by
    simp [scrollEffectActive, hm, ho]
  by_cases he : escapeEffectActive c = true
  · simp [openCloseRoundTrip, mountModalEffects, cleanupModalEffects, hs, he,
      DocState.mk.injEq]
    constructor
    · intro h; exact h.symm
    · intro h; exact h.symm
  · simp [openCloseRoundTrip, mountModalEffects, cleanupModalEffects, hs, he,
      DocState.mk.injEq]
    constructor
    · intro h; exact h.symm
    · intro h; exact h.symm

/-- Witness for `overlay_roundtrip_amended` at a concrete open modal over a
document with overflow "auto" and no pre-existing listeners. -/
theorem overlay_roundtrip_amended_witness :
    ({ modal := true, modalOpen := true, onModalClose := true } : ContainerCfg).modal = true ∧
    (openCloseRoundTrip { modal := true, modalOpen := true, onModalClose := true }
        ⟨"auto", 3⟩).keydownHandlers = 3 ∧
    (openCloseRoundTrip { modal := true, modalOpen := true, onModalClose := true }
        ⟨"auto", 3⟩).overflow = "unset" :=
  ⟨rfl,
   (overlay_roundtrip_amended _ ⟨"auto", 3⟩ rfl rfl).1,
   (overlay_roundtrip_amended _ ⟨"auto", 3⟩ rfl rfl).2.1⟩

/-- Claim C2 is falsified at a concrete run: triggering success on an idle
button schedules a revert timer; a subsequent change of the variant prop
while the cycle is in flight (the variant-reset effect) leaves the timer
scheduled, and so does unmounting — nothing in the source stores the timeout
id or calls clearTimeout, so the scheduled timer is never cancelled. -/
theorem timer_cancellation_cex :
    (variantResetEffect "secondary" "Save"
        (showSuccessEffect
          { variant := "primary", children := "Save", showSuccess := true }
          (⟨"primary", "Save", false⟩, []))).2
      = [⟨3000, "primary", "Save", "success"⟩] ∧
    (unmountButton
        (variantResetEffect "secondary" "Save"
          (showSuccessEffect
            { variant := "primary", children := "Save", showSuccess := true }
            (⟨"primary", "Save", false⟩, [])))).2
      = [⟨3000, "primary", "Save", "success"⟩] ∧
    ([⟨3000, "primary", "Save", "success"⟩] : List RevertTimer) ≠ [] := by
  decide

/-- Claim C2 (amended): no cancellation of the scheduled feedback-revert
timer exists in the source — the timeout id is discarded and none of the
button's effects returns a cleanup.  Both a change of the externally-owned
variant prop while a cycle is in flight and an unmount leave the set of
scheduled timers exactly unchanged, so a timer scheduled during a feedback
cycle always survives those events and fires after its delay. -/
theorem timer_never_cancelled (v ch : String) (st : BtnState × List RevertTimer) :
    (variantResetEffect v ch st).2 = st.2 ∧ (unmountButton st).2 = st.2 := by
  constructor
  · unfold variantResetEffect
    split <;> rfl
  · rfl

/-- Claim C3 is falsified at its own input: with `marginTop=8` and
`marginX=20` (no uniform margin), the resolved record carries
`marginTop = "8px"` — the horizontal axis margin does not overwrite the
per-side top margin, contradicting the claimed `top=20`. -/
theorem margin_precedence_cex :
    (getPositionStyles { marginTop := some (.num 8), marginX := some (.num 20) }).marginTop
      = some (.str "8px") ∧
    (getPositionStyles { marginTop := some (.num 8), marginX := some (.num 20) }).marginTop
      ≠ some (.str "20px") ∧
    (getPositionStyles { marginTop := some (.num 8), marginX := some (.num 20) }).marginTop
      ≠ some (.num 20) := by
  decide

/-- Claim C3 (amended): for a placement spec with `marginTop` and `marginX`
set and no uniform margin, the axis margin overwrites only the two sides of
its own axis: the resolved record has left and right equal to the `marginX`
value, the top equal to the per-side `marginTop` value (which survives), and
bottom/uniform margin unset. -/
theorem margin_axis_resolution (t x : JSVal) :
    (getPositionStyles { marginTop := some t, marginX := some x }).marginTop
      = some t.px ∧
    (getPositionStyles { marginTop := some t, marginX := some x }).marginLeft
      = some x.px ∧
    (getPositionStyles { marginTop := some t, marginX := some x }).marginRight
      = some x.px ∧
    (getPositionStyles { marginTop := some t, marginX := some x }).marginBottom
      = none ∧
    (getPositionStyles { marginTop := some t, marginX := some x }).margin
      = none :=
  ⟨rfl, rfl, rfl, rfl, rfl⟩

/-- Claim C4 is falsified at a concrete input: with `position=absolute`,
`placement=center` and the explicit offset `top=0`, the geometry record
carries the preset value `50%` for top, not the supplied `0` — the preset
branch computes `top || '50%'` and the number 0 is falsy. -/
theorem preset_zero_offset_cex :
    (getPositionStyles
        { position := "absolute", placement := some "center", top := some (.num 0) }).top
      = some (.str "50%") ∧
    some (JSVal.str "50%") ≠ some (JSVal.num 0) := by
  decide

/-- Helper: `v || d` keeps a truthy `v` — the preset branch's computation
`side || default` returns the explicit value whenever it is truthy. -/
theorem jsOrOpt_some_of_truthy (v d : JSVal) (h : v.truthy = true) :
    jsOrOpt (some v) d = v := by
  simp [jsOrOpt, jsOr, h]

/-- Claim C4 (amended): for positionMode absolute or fixed and every named
placement, an explicit truthy offset (nonzero number or non-empty string)
supplied for a side for which the preset derives a value replaces that
preset-derived value, while every side the input did not override keeps its
preset value, and the transform and position are those of the preset
regardless of which offsets were overridden.  (A supplied falsy offset such
as 0 instead falls back to the preset default, per the counterexample.) -/
theorem preset_explicit_truthy_override
    (pos pl : String) (otop oright obottom oleft : Option JSVal)
    (hpos : pos = "absolute" ∨ pos = "fixed")
    (hpl : pl ∈ (["top-left", "top-center", "top-right", "center-left", "center",
                  "center-right", "bottom-left", "bottom-center",
                  "bottom-right"] : List String))
    (htop : ∀ v, otop = some v → v.truthy = true)
    (hright : ∀ v, oright = some v → v.truthy = true)
    (hbottom : ∀ v, obottom = some v → v.truthy = true)
    (hleft : ∀ v, oleft = some v → v.truthy = true) :
    (∀ v, otop = some v →
      (getPositionStyles { position := pos, placement := some pl }).top.isSome = true →
      (getPositionStyles
        { position := pos, placement := some pl, top := otop, right := oright,
          bottom := obottom, left := oleft }).top = some v) ∧
    (∀ v, oright = some v →
      (getPositionStyles { position := pos, placement := some pl }).right.isSome = true →
      (getPositionStyles
        { position := pos, placement := some pl, top := otop, right := oright,
          bottom := obottom, left := oleft }).right = some v) ∧
    (∀ v, obottom = some v →
      (getPositionStyles { position := pos, placement := some pl }).bottom.isSome = true →
      (getPositionStyles
        { position := pos, placement := some pl, top := otop, right := oright,
          bottom := obottom, left := oleft }).bottom = some v) ∧
    (∀ v, oleft = some v →
      (getPositionStyles { position := pos, placement := some pl }).left.isSome = true →
      (getPositionStyles
        { position := pos, placement := some pl, top := otop, right := oright,
          bottom := obottom, left := oleft }).left = some v) ∧
    (otop = none →
      (getPositionStyles
        { position := pos, placement := some pl, top := otop, right := oright,
          bottom := obottom, left := oleft }).top
        = (getPositionStyles { position := pos, placement := some pl }).top) ∧
    (oright = none →
      (getPositionStyles
        { position := pos, placement := some pl, top := otop, right := oright,
          bottom := obottom, left := oleft }).right
        = (getPositionStyles { position := pos, placement := some pl }).right) ∧
    (obottom = none →
      (getPositionStyles
        { position := pos, placement := some pl, top := otop, right := oright,
          bottom := obottom, left := oleft }).bottom
        = (getPositionStyles { position := pos, placement := some pl }).bottom) ∧
    (oleft = none →
      (getPositionStyles
        { position := pos, placement := some pl, top := otop, right := oright,
          bottom := obottom, left := oleft }).left
        = (getPositionStyles { position := pos, placement := some pl }).left) ∧
    ((getPositionStyles
        { position := pos, placement := some pl, top := otop, right := oright,
          bottom := obottom, left := oleft }).transform
      = (getPositionStyles { position := pos, placement := some pl }).transform) ∧
    ((getPositionStyles
        { position := pos, placement := some pl, top := otop, right := oright,
          bottom := obottom, left := oleft }).position
      = (getPositionStyles { position := pos, placement := some pl }).position) := by
  rcases hpos with rfl | rfl <;> fin_cases hpl <;>
    refine ⟨?_, ?_, ?_, ?_, ?_, ?_, ?_, ?_, ?_, ?_⟩ <;>
    first
      | rfl
      | (rintro rfl; rfl)
      | (rintro v rfl h;
         first
           | exact absurd h (by decide)
           | exact congrArg some (jsOrOpt_some_of_truthy v _ (htop v rfl))
           | exact congrArg some (jsOrOpt_some_of_truthy v _ (hright v rfl))
           | exact congrArg some (jsOrOpt_some_of_truthy v _ (hbottom v rfl))
           | exact congrArg some (jsOrOpt_some_of_truthy v _ (hleft v rfl)))

/-- Witness for `preset_explicit_truthy_override` at `position = fixed`,
`placement = center` with the explicit truthy offset `top = 10`: the top
side carries 10 while the untouched left side and the transform keep their
preset values. -/
theorem preset_explicit_truthy_override_witness :
    ("center" : String) ∈ (["top-left", "top-center", "top-right", "center-left",
        "center", "center-right", "bottom-left", "bottom-center",
        "bottom-right"] : List String) ∧
    (getPositionStyles
        { position := "fixed", placement := some "center", top := some (.num 10) }).top
      = some (.num 10) ∧
    (getPositionStyles
        { position := "fixed", placement := some "center", top := some (.num 10) }).left
      = (getPositionStyles { position := "fixed", placement := some "center" }).left ∧
    (getPositionStyles
        { position := "fixed", placement := some "center", top := some (.num 10) }).transform
      = (getPositionStyles { position := "fixed", placement := some "center" }).transform := by
  have H := preset_explicit_truthy_override "fixed" "center"
    (some (.num 10)) none none none
    (Or.inr rfl) (by decide)
    (fun v hv => by cases hv; decide)
    (fun v hv => nomatch hv) (fun v hv => nomatch hv) (fun v hv => nomatch hv)
  exact ⟨by decide, H.1 (.num 10) rfl (by decide),
    H.2.2.2.2.2.2.2.1 rfl, H.2.2.2.2.2.2.2.2.1⟩

/-- Claim C5 is falsified on the vertical-axis conjunct: with the default
configuration the generic padding token is present; setting `paddingX="4"`
(padding still true, paddingY absent) removes the generic token and the
resulting list — shown in full — contains no vertical padding token at all,
so the vertical-axis default padding is not left in effect. -/
theorem spacing_axis_cex :
    "responsive-container--padding" ∈ containerClasses {} ∧
    containerClasses { paddingX := some "4" }
      = ["responsive-container", "responsive-container--full",
         "responsive-container--align-center", "responsive-container--padding-x-4",
         "responsive-container--margin", "responsive-container--stack",
         "responsive-container--radius-none"] ∧
    "responsive-container--padding" ∉ containerClasses { paddingX := some "4" } ∧
    verticalPaddingTokens (containerClasses { paddingX := some "4" }) = [] := by
  decide

/-- Claim C5 (amended): an axis-specific spacing field suppresses the
generic boolean default entirely, for both axes, not only for its own axis:
for every documented paddingX value, the output omits the generic padding
token, includes the paddingX axis token, and contains no token providing
vertical padding (whereas the default configuration does provide one); the
same suppression holds for marginX and the generic margin token. -/
theorem spacing_axis_suppresses_default (v : String)
    (hv : v ∈ (["0", "1", "2", "4", "6", "8", "12", "16"] : List String)) :
    "responsive-container--padding" ∉ containerClasses { paddingX := some v } ∧
    ("responsive-container--padding-x-" ++ v) ∈ containerClasses { paddingX := some v } ∧
    verticalPaddingTokens (containerClasses { paddingX := some v }) = [] ∧
    verticalPaddingTokens (containerClasses {}) = ["responsive-container--padding"] ∧
    "responsive-container--margin" ∉ containerClasses { marginX := some v } ∧
    ("responsive-container--margin-x-" ++ v) ∈ containerClasses { marginX := some v } := by
  fin_cases hv <;> decide

/-- Witness for `spacing_axis_suppresses_default` at `paddingX = "4"`. -/
theorem spacing_axis_suppresses_default_witness :
    ("4" : String) ∈ (["0", "1", "2", "4", "6", "8", "12", "16"] : List String) ∧
    "responsive-container--padding" ∉ containerClasses { paddingX := some "4" } ∧
    ("responsive-container--padding-x-" ++ "4") ∈ containerClasses { paddingX := some "4" } :=
  ⟨by decide,
   (spacing_axis_suppresses_default "4" (by decide)).1,
   (spacing_axis_suppresses_default "4" (by decide)).2.1⟩

/-- Claim C6 is falsified at a concrete configuration: with border width "2",
border color "primary" and border style "dashed", the composed list contains
three pairwise-distinct tokens of the same border category
(`responsive-container--border-<value>`). -/
theorem compose_border_category_cex :
    "responsive-container--border-2"
        ∈ containerClasses
            { border := some "2", borderColor := some "primary", borderStyle := "dashed" } ∧
    "responsive-container--border-primary"
        ∈ containerClasses
            { border := some "2", borderColor := some "primary", borderStyle := "dashed" } ∧
    "responsive-container--border-dashed"
        ∈ containerClasses
            { border := some "2", borderColor := some "primary", borderStyle := "dashed" } ∧
    ("responsive-container--border-2" : String) ≠ "responsive-container--border-primary" ∧
    ("responsive-container--border-2" : String) ≠ "responsive-container--border-dashed" ∧
    ("responsive-container--border-primary" : String) ≠ "responsive-container--border-dashed" := by
  decide

/-- Claim C6 (amended): the composed list filters falsy entries but performs
no per-category deduplication; in particular the border width, border color
and (non-solid) border style props each emit a token in the shared border
category, so a single category can contribute up to three pairwise-distinct
tokens, for every documented border width and non-solid border style. -/
theorem compose_border_three_tokens (w bs : String)
    (hw : w ∈ (["1", "2", "3", "4", "5", "6", "8"] : List String))
    (hbs : bs ∈ (["dashed", "dotted", "double"] : List String)) :
    ("responsive-container--border-" ++ w)
        ∈ containerClasses
            { border := some w, borderColor := some "primary", borderStyle := bs } ∧
    "responsive-container--border-primary"
        ∈ containerClasses
            { border := some w, borderColor := some "primary", borderStyle := bs } ∧
    ("responsive-container--border-" ++ bs)
        ∈ containerClasses
            { border := some w, borderColor := some "primary", borderStyle := bs } ∧
    ("responsive-container--border-" ++ w) ≠ "responsive-container--border-primary" ∧
    ("responsive-container--border-" ++ w) ≠ ("responsive-container--border-" ++ bs) ∧
    ("responsive-container--border-primary" : String) ≠ ("responsive-container--border-" ++ bs) := by
  fin_cases hw <;> fin_cases hbs <;> decide

/-- Witness for `compose_border_three_tokens` at width "2", style "dashed". -/
theorem compose_border_three_tokens_witness :
    ("2" : String) ∈ (["1", "2", "3", "4", "5", "6", "8"] : List String) ∧
    ("responsive-container--border-" ++ "2")
        ∈ containerClasses
            { border := some "2", borderColor := some "primary", borderStyle := "dashed" } :=
  ⟨by decide,
   (compose_border_three_tokens "2" "dashed" (by decide) (by decide)).1⟩

/-- Claim C7: the dismissal callback is invoked on a click exactly when the
click's target equals the backdrop element itself (the handler's
currentTarget), backdrop dismissal is enabled, and a close callback was
supplied; a click whose target is a descendant (target distinct from the
backdrop) never dismisses, and with no callback the path is a no-op. -/
theorem backdrop_click_iff (c : ContainerCfg) (e : ClickEvent) :
    handleBackdropClick c e = true ↔
      e.target = e.currentTarget ∧ c.modalCloseOnBackdrop = true ∧ c.onModalClose = true := by
  unfold handleBackdropClick
  constructor
  · intro h
    simp only [Bool.and_eq_true, beq_iff_eq] at h
    exact ⟨h.2, h.1.1, h.1.2⟩
  · rintro ⟨h1, h2, h3⟩
    simp [h1, h2, h3]

/-- Claim C8: a success or error trigger received while a feedback cycle is
in flight is a no-op on state and timers (at most one active cycle), and
when the scheduled timer for a cycle started from idle expires, the phase
returns to idle with the displayed variant and content restored to the
values captured at trigger time (the originally saved content). -/
theorem feedback_reentrancy_and_revert
    (p q : BtnProps) (s s2 : BtnState) (ts ts2 : List RevertTimer)
    (hfb : s.isShowingFeedback = true)
    (hq : q.showSuccess = true) (hqd : q.disabled = false)
    (hidle : s2.isShowingFeedback = false) :
    showSuccessEffect p (s, ts) = (s, ts) ∧
    showErrorEffect p (s, ts) = (s, ts) ∧
    (showSuccessEffect q (s2, ts2)).2
      = ts2 ++ [⟨q.feedbackDuration, q.variant, q.children, "success"⟩] ∧
    timerExpire ⟨q.feedbackDuration, q.variant, q.children, "success"⟩
        (showSuccessEffect q (s2, ts2)).1
      = ⟨q.variant, q.children, false⟩ := by
  refine ⟨?_, ?_, ?_, rfl⟩
  · simp [showSuccessEffect, hfb]
  · simp [showErrorEffect, hfb]
  · simp [showSuccessEffect, handleSuccess, hq, hqd, hidle]

/-- Witness for `feedback_reentrancy_and_revert`: a mid-cycle state ignores
both triggers, and a cycle started from idle reverts to the captured
variant/content on expiry. -/
theorem feedback_reentrancy_and_revert_witness :
    (⟨"success", "Saved!", true⟩ : BtnState).isShowingFeedback = true ∧
    showSuccessEffect { showSuccess := true, showError := true }
        (⟨"success", "Saved!", true⟩, [])
      = (⟨"success", "Saved!", true⟩, []) ∧
    timerExpire ⟨3000, "primary", "Save", "success"⟩
        (showSuccessEffect { variant := "primary", children := "Save", showSuccess := true }
          (⟨"primary", "Save", false⟩, [])).1
      = ⟨"primary", "Save", false⟩ :=
  ⟨rfl,
   (feedback_reentrancy_and_revert
      { showSuccess := true, showError := true }
      { variant := "primary", children := "Save", showSuccess := true }
      ⟨"success", "Saved!", true⟩ ⟨"primary", "Save", false⟩ [] []
      rfl rfl rfl rfl).1,
   (feedback_reentrancy_and_revert
      { showSuccess := true, showError := true }
      { variant := "primary", children := "Save", showSuccess := true }
      ⟨"success", "Saved!", true⟩ ⟨"primary", "Save", false⟩ [] []
      rfl rfl rfl rfl).2.2.2⟩

/-- Claim C9: with disabled=true, a showSuccess or showError trigger is a
complete no-op — the trigger effects leave state and timers unchanged, and
even a direct call to the handlers is blocked by their own disabled guard,
so no timer is scheduled and variant/content are untouched. -/
theorem disabled_gates_feedback (p : BtnProps) (s : BtnState) (ts : List RevertTimer)
    (hd : p.disabled = true) :
    showSuccessEffect p (s, ts) = (s, ts) ∧
    showErrorEffect p (s, ts) = (s, ts) ∧
    handleSuccess p s ts = (s, ts) ∧
    handleError p s ts = (s, ts) := by
  refine ⟨?_, ?_, ?_, ?_⟩ <;>
    simp [showSuccessEffect, showErrorEffect, handleSuccess, handleError, hd]

/-- Witness for `disabled_gates_feedback` at a disabled button with both
triggers raised. -/
theorem disabled_gates_feedback_witness :
    ({ disabled := true, showSuccess := true, showError := true } : BtnProps).disabled
      = true ∧
    showSuccessEffect { disabled := true, showSuccess := true, showError := true }
        (⟨"primary", "Go", false⟩, [])
      = (⟨"primary", "Go", false⟩, []) :=
  ⟨rfl,
   (disabled_gates_feedback
      { disabled := true, showSuccess := true, showError := true }
      ⟨"primary", "Go", false⟩ [] rfl).1⟩

/-- Claim C10: with autoFit=true (and no extra className), the emitted class
list is exactly the base token, one auto-fit token (suffixed with the size
variant only when it is not "md"), and the gap/items/justify tokens — in
particular it contains exactly one auto-fit token and no column-count token
for cols, smCols, mdCols, lgCols or xlCols, whatever their values. -/
theorem grid_autofit_classes (g : GridCfg)
    (hauto : g.autoFit = true) (hcn : g.className = "") :
    gridClasses g
      = ["responsive-grid",
         "responsive-grid--auto-fit" ++
           (if g.autoFitSize != "md" then "-" ++ g.autoFitSize else ""),
         "responsive-grid--gap-" ++ g.gap,
         "responsive-grid--items-" ++ g.alignItems,
         "responsive-grid--justify-" ++ g.justifyItems] := by
  obtain ⟨cn, cols, sm, md, lg, xl, gap, ai, ji, af, afs⟩ := g
  cases hauto
  cases hcn
  rfl

/-- Witness for `grid_autofit_classes` at a grid with autoFitSize "lg" and
several column props supplied. -/
theorem grid_autofit_classes_witness :
    ({ autoFit := true, autoFitSize := "lg", cols := 7, smCols := some 3,
       xlCols := some 12 } : GridCfg).autoFit = true ∧
    gridClasses
        { autoFit := true, autoFitSize := "lg", cols := 7, smCols := some 3,
          xlCols := some 12 }
      = ["responsive-grid", "responsive-grid--auto-fit-lg", "responsive-grid--gap-4",
         "responsive-grid--items-start", "responsive-grid--justify-start"] :=
  ⟨rfl, by
    have h := grid_autofit_classes
      { autoFit := true, autoFitSize := "lg", cols := 7, smCols := some 3,
        xlCols := some 12 } rfl rfl
    simpa using h⟩
